import Mathlib

/-!
Shallow embedding of the session-authentication, role-resolution and
cart-pricing core of the auto-parts e-commerce backend
(`backend/app/core/security.py`, `backend/app/api/v1/endpoints/cart.py`,
`backend/app/api/v1/endpoints/admins.py`,
`backend/app/api/v1/endpoints/delta_sync.py`).

Monetary values are modelled as rationals; timestamps as integers.
MongoDB collections are modelled as lists of records; `find_one` is the
first list element matching the query, `update_one` rewrites the first
matching element, `delete_one` removes the first matching element and
`delete_many` / `$pull` filter out every matching element.
-/

namespace Shop

/-- Python `round(x, 2)` on a decimal value: round half to even at the
second decimal place. -/
def round2 (q : ℚ) : ℚ :=
  let n : ℤ := (q * 100).floor
  let frac : ℚ := q * 100 - n
  let r : ℤ :=
    if frac < 1/2 then n
    else if 1/2 < frac then n + 1
    else if n % 2 = 0 then n else n + 1
  (r : ℚ) / 100

/-- `update_one`: rewrite the first element satisfying `p` (MongoDB
`update_one`, and the positional `$` operator inside an array). -/
def update_one (p : α → Bool) (f : α → α) : List α → List α
  | [] => []
  | x :: xs => if p x then f x :: xs else x :: update_one p f xs

/-- `discount_details` sub-document of a cart line. -/
structure DiscountDetails where
  discount_type : String
  discount_value : ℚ
  discount_source_id : Option String
  deriving Repr, DecidableEq

/-- A stored cart line (`items` array element of a cart document).
Fields the handlers read with `.get` are optional. -/
structure CartLine where
  product_id : String
  quantity : ℤ
  original_unit_price : Option ℚ
  final_unit_price : Option ℚ
  discount_details : Option DiscountDetails
  bundle_group_id : Option String
  added_by_admin_id : Option String
  deriving Repr, DecidableEq

/-- A product document (fields used by the cart handlers). -/
structure Product where
  id : String
  price : ℚ
  stock_quantity : ℤ
  deriving Repr, DecidableEq

/-- A cart document: one per user, holding an ordered list of lines. -/
structure CartDoc where
  user_id : String
  items : List CartLine
  deriving Repr, DecidableEq

/-- A session document. `expires_at = none` models a missing/None
`expires_at` (falsy in the handler's `if session.get("expires_at")`). -/
structure SessionRec where
  id : String
  session_token : String
  user_id : String
  expires_at : Option ℤ
  deriving Repr, DecidableEq

/-- A user document. -/
structure UserRec where
  id : String
  email : String
  deleted_at : Option ℤ
  deriving Repr, DecidableEq

/-- A membership record of the partner / admin / subscriber collections. -/
structure MemberRec where
  id : String
  email : String
  deleted_at : Option ℤ
  deriving Repr, DecidableEq

/-- The document store: the collections touched by the embedded handlers. -/
structure DB where
  sessions : List SessionRec
  users : List UserRec
  partners : List MemberRec
  admins : List MemberRec
  subscribers : List MemberRec
  products : List Product
  carts : List CartDoc
  deriving Repr, DecidableEq

/-- `db.products.find_one({"_id": pid})`. -/
def findProduct (ps : List Product) (pid : String) : Option Product :=
  ps.find? (fun p => p.id == pid)

/-- One entry of the `items` list returned by `GET /cart`. -/
structure CartItemOut where
  product_id : String
  quantity : ℤ
  original_unit_price : ℚ
  final_unit_price : ℚ
  discount_details : Option DiscountDetails
  bundle_group_id : Option String
  added_by_admin_id : Option String
  item_subtotal : ℚ
  item_discount : ℚ
  deriving Repr, DecidableEq

/-- Response of `GET /cart`. -/
structure CartResponse where
  items : List CartItemOut
  subtotal : ℚ
  total_discount : ℚ
  total : ℚ
  deriving Repr, DecidableEq

/-- The accumulation loop of `get_cart`: lines whose product does not
resolve are skipped; for the rest the response entry is built and the
raw (unrounded) subtotal and total discount are accumulated. -/
def getCartLoop (ps : List Product) : List CartLine → List CartItemOut × ℚ × ℚ
  | [] => ([], 0, 0)
  | item :: rest =>
    match findProduct ps item.product_id with
    | none => getCartLoop ps rest
    | some product =>
      let original_price := item.original_unit_price.getD product.price
      let final_price := item.final_unit_price.getD product.price
      let quantity : ℚ := item.quantity
      let item_discount := (original_price - final_price) * quantity
      let item_subtotal := final_price * quantity
      let entry : CartItemOut :=
        { product_id := item.product_id
          quantity := item.quantity
          original_unit_price := original_price
          final_unit_price := final_price
          discount_details := item.discount_details
          bundle_group_id := item.bundle_group_id
          added_by_admin_id := item.added_by_admin_id
          item_subtotal := item_subtotal
          item_discount := item_discount }
      let r := getCartLoop ps rest
      (entry :: r.1, original_price * quantity + r.2.1, item_discount + r.2.2)

/-- `GET /cart` recompute on a cart's `items` given the product
collection: totals are accumulated unrounded and rounded only in the
returned response. -/
def getCart (ps : List Product) (items : List CartLine) : CartResponse :=
  let r := getCartLoop ps items
  { items := r.1
    subtotal := round2 r.2.1
    total_discount := round2 r.2.2
    total := round2 (r.2.1 - r.2.2) }

/-- The `GET /cart` endpoint after authentication: a pure read of the
store (its handler performs no insert/update/delete), returning the
store unchanged together with the response. -/
def get_cart_endpoint (db : DB) (uid : String) : DB × CartResponse :=
  match db.carts.find? (fun c => c.user_id == uid) with
  | none => (db, { items := [], subtotal := 0, total_discount := 0, total := 0 })
  | some cart => (db, getCart db.products cart.items)

/-- `get_current_user`: resolve the session token to a user, treating a
missing session, an expired session (which is eagerly deleted), a missing
user or a soft-deleted user as unauthenticated. Returns the possibly
updated store together with the resolved user. -/
def get_current_user (db : DB) (now : ℤ) (token : Option String) :
    DB × Option UserRec :=
  match token with
  | none => (db, none)
  | some t =>
    match db.sessions.find? (fun s => s.session_token == t) with
    | none => (db, none)
    | some session =>
      let lookupUser : DB × Option UserRec :=
        match db.users.find? (fun u => u.id == session.user_id) with
        | none => (db, none)
        | some user =>
          if user.deleted_at.isSome then (db, none) else (db, some user)
      match session.expires_at with
      | some e =>
        if e ≤ now then
          ({ db with sessions := db.sessions.eraseP (fun s => s.id == session.id) },
           none)
        else lookupUser
      | none => lookupUser

/-- Non-deleted membership lookup:
`collection.find_one({"email": email, "deleted_at": None})`. -/
def findMember (coll : List MemberRec) (email : String) : Option MemberRec :=
  coll.find? (fun r => r.email == email && r.deleted_at == none)

/-- `get_user_role`: strict precedence owner > partner > admin >
subscriber > user, with guest for a missing identity. The configured
`PRIMARY_OWNER_EMAIL` is passed as `ownerEmail`. -/
def get_user_role (ownerEmail : String) (db : DB) (user : Option UserRec) :
    String :=
  match user with
  | none => "guest"
  | some u =>
    let email := u.email
    if email == ownerEmail then "owner"
    else if (findMember db.partners email).isSome then "partner"
    else if (findMember db.admins email).isSome then "admin"
    else if (findMember db.subscribers email).isSome then "subscriber"
    else "user"

/-- `require_auth`: 401 when no user resolves. -/
def require_auth (db : DB) (now : ℤ) (token : Option String) :
    DB × Except Nat UserRec :=
  match get_current_user db now token with
  | (db2, none) => (db2, .error 401)
  | (db2, some u) => (db2, .ok u)

/-- `require_admin_role`: 401 when unauthenticated, 403 when the resolved
role is not in the allowed set, otherwise the `(user, role)` pair. -/
def require_admin_role (ownerEmail : String) (db : DB) (now : ℤ)
    (token : Option String) (allowed_roles : List String) :
    DB × Except Nat (UserRec × String) :=
  match require_auth db now token with
  | (db2, .error e) => (db2, .error e)
  | (db2, .ok user) =>
    let role := get_user_role ownerEmail db2 (some user)
    if allowed_roles.contains role then (db2, .ok (user, role))
    else (db2, .error 403)

/-- `invalidate_user_sessions`: `db.sessions.delete_many({"user_id": uid})`. -/
def invalidate_user_sessions (db : DB) (uid : String) : DB :=
  { db with sessions := db.sessions.filter (fun s => !(s.user_id == uid)) }

/-- `DELETE /admins/{admin_id}` after its role check: soft-delete the
admin record (`update_one` setting `deleted_at`); the handler performs no
other write. -/
def delete_admin (db : DB) (now : ℤ) (admin_id : String) : DB :=
  { db with
    admins := (update_one (fun a => a.id == admin_id)
      (fun a => { a with deleted_at := some now }) db.admins) }

/-- Request body of `POST /cart/add` (`CartItemAdd` pydantic model). -/
structure CartItemAdd where
  product_id : String
  quantity : ℤ
  bundle_group_id : Option String
  bundle_offer_id : Option String
  bundle_discount_percentage : Option ℚ
  deriving Repr, DecidableEq

/-- Python truthiness of an `Optional[str]`: `None` and `""` are falsy. -/
def truthyStr : Option String → Bool
  | none => false
  | some s => !(s == "")

/-- Python truthiness of the optional discount percentage combined with
the `> 0` guard: `if item.bundle_discount_percentage and
item.bundle_discount_percentage > 0`. -/
def posPct : Option ℚ → Bool
  | none => false
  | some pct => !(pct == 0) && decide (0 < pct)

/-- The cart line built by `add_to_cart`: prices are frozen from the
product, the final unit price is rounded to 2 decimals, and a positive
bundle discount percentage records bundle discount details. -/
def mkCartItem (product : Product) (item : CartItemAdd) : CartLine :=
  let original_price := product.price
  let final_price :=
    if posPct item.bundle_discount_percentage then
      original_price * (1 - (item.bundle_discount_percentage.getD 0) / 100)
    else original_price
  let dd : DiscountDetails :=
    if posPct item.bundle_discount_percentage then
      { discount_type := "bundle"
        discount_value := item.bundle_discount_percentage.getD 0
        discount_source_id := item.bundle_offer_id }
    else { discount_type := "none", discount_value := 0, discount_source_id := none }
  { product_id := item.product_id
    quantity := item.quantity
    original_unit_price := some original_price
    final_unit_price := some (round2 final_price)
    discount_details := some dd
    bundle_group_id := item.bundle_group_id
    added_by_admin_id := none }

/-- The merge test of the `add_to_cart` scan over existing lines: same
product and — when the request carries a truthy `bundle_group_id` — the
same group, otherwise a line with a falsy group. -/
def matchesLine (item : CartItemAdd) (existing : CartLine) : Bool :=
  existing.product_id == item.product_id &&
    (if truthyStr item.bundle_group_id then
      existing.bundle_group_id == item.bundle_group_id
    else !(truthyStr existing.bundle_group_id))

/-- `$inc items.idx.quantity` on the line at position `idx`. -/
def incQuantityAt (items : List CartLine) (idx : ℕ) (q : ℤ) : List CartLine :=
  items.modify (fun l => { l with quantity := l.quantity + q }) idx

/-- `POST /cart/add` after authentication: 404 when the product is
unknown; otherwise either create the cart, increment the quantity of the
first line matching product and bundle group, or push a new line. -/
def add_to_cart (db : DB) (uid : String) (item : CartItemAdd) :
    DB × Except Nat CartLine :=
  match findProduct db.products item.product_id with
  | none => (db, .error 404)
  | some product =>
    let cart_item := mkCartItem product item
    match db.carts.find? (fun c => c.user_id == uid) with
    | none =>
      ({ db with carts := db.carts ++ [{ user_id := uid, items := [cart_item] }] },
       .ok cart_item)
    | some cart =>
      match cart.items.findIdx? (matchesLine item) with
      | some existing_idx =>
        ({ db with carts := (update_one (fun c => c.user_id == uid)
            (fun c => { c with items := incQuantityAt c.items existing_idx item.quantity })
            db.carts) },
         .ok cart_item)
      | none =>
        ({ db with carts := (update_one (fun c => c.user_id == uid)
            (fun c => { c with items := c.items ++ [cart_item] })
            db.carts) },
         .ok cart_item)

/-- `PUT /cart/update` after authentication: quantity ≤ 0 pulls every
line of the product out of the user's cart; a positive quantity sets the
quantity of the first matching line via the positional `$` operator (the
update matches a cart only if it contains such a line). -/
def update_cart (db : DB) (uid : String) (item : CartItemAdd) : DB :=
  if item.quantity ≤ 0 then
    { db with carts := (update_one (fun c => c.user_id == uid)
        (fun c => { c with items := (
          c.items.filter (fun l => !(l.product_id == item.product_id))) })
        db.carts) }
  else
    { db with carts := (update_one
        (fun c => c.user_id == uid && c.items.any (fun l => l.product_id == item.product_id))
        (fun c => { c with items := (update_one
          (fun l => l.product_id == item.product_id)
          (fun l => { l with quantity := item.quantity })
          c.items) })
        db.carts) }

/-- The per-line rewrite of `void_bundle_discount`: lines of the voided
group get their final price reset to the original (`item.get` with the
current final price as default), discount details cleared to `none` and
the group id cleared; other lines pass through unchanged. -/
def voidLine (g : String) (item : CartLine) : CartLine :=
  if item.bundle_group_id == some g then
    { item with
      final_unit_price :=
        some (item.original_unit_price.getD (item.final_unit_price.getD 0))
      discount_details :=
        some { discount_type := "none", discount_value := 0, discount_source_id := none }
      bundle_group_id := none }
  else item

/-- `DELETE /cart/void-bundle/{g}` after authentication: rewrite every
line of the user's cart through `voidLine` (no-op when no cart exists). -/
def void_bundle_discount (db : DB) (uid : String) (g : String) : DB :=
  match db.carts.find? (fun c => c.user_id == uid) with
  | none => db
  | some cart =>
    { db with carts := (update_one (fun c => c.user_id == uid)
        (fun c => { c with items := cart.items.map (voidLine g) })
        db.carts) }

/-- A category document (fields used by the categories delta pull). -/
structure CatRec where
  id : String
  name : String
  sort_order : ℤ
  updated_at : ℤ
  deleted_at : Option ℤ
  deriving Repr, DecidableEq

/-- Lexicographic code-point order on character lists (the string order
the document store sorts by). -/
def charListLe : List Char → List Char → Bool
  | [], _ => true
  | _ :: _, [] => false
  | a :: as, b :: bs =>
    a.toNat < b.toNat || (a.toNat == b.toNat && charListLe as bs)

/-- String order used by the sort on category names. -/
def strLe (a b : String) : Bool := charListLe a.data b.data

/-- The Mongo sort key of the categories query:
`sort_order` ascending, then `name` ascending. -/
def catLe (a b : CatRec) : Bool :=
  a.sort_order < b.sort_order ||
    (a.sort_order == b.sort_order && strLe a.name b.name)

/-- `GET /delta-sync/categories` with an already parsed `last_sync`:
non-deleted records (restricted to `updated_at > since` when `since` is
given), sorted and truncated by `to_list(1000)`; deleted ids (truncated
by `to_list(500)`) only when `since` is given. Returns
`(categories, deleted_ids)`. -/
def get_categories_delta (cats : List CatRec) (last_sync : Option ℤ) :
    List CatRec × List String :=
  let query : CatRec → Bool := fun c =>
    c.deleted_at == none &&
      (match last_sync with
       | none => true
       | some t => decide (t < c.updated_at))
  let categories := ((cats.filter query).insertionSort
    (fun a b => catLe a b)).take 1000
  let deleted_ids :=
    match last_sync with
    | none => []
    | some t =>
      ((cats.filter (fun c =>
        match c.deleted_at with
        | some d => decide (t < d)
        | none => false)).take 500).map (fun c => c.id)
  (categories, deleted_ids)

/-- The original unit price `get_cart` uses for a line: the frozen
`original_unit_price`, falling back to the live product price
(unused default 0 when the product does not resolve; the read path
skips such lines). -/
def lineOriginalD (ps : List Product) (l : CartLine) : ℚ :=
  match findProduct ps l.product_id with
  | some p => l.original_unit_price.getD p.price
  | none => 0

/-- The final unit price `get_cart` uses for a line, with the same
fallback as `lineOriginalD`. -/
def lineFinalD (ps : List Product) (l : CartLine) : ℚ :=
  match findProduct ps l.product_id with
  | some p => l.final_unit_price.getD p.price
  | none => 0

/-- Witness session for C1: token `tok1`, expiring at time 5. -/
def sessC1 : SessionRec :=
  { id := "s1", session_token := "tok1", user_id := "u1", expires_at := some 5 }

/-- Witness store for C1: one expiring session owned by an existing user. -/
def dbC1 : DB :=
  { sessions := [sessC1]
    users := [{ id := "u1", email := "a@b.c", deleted_at := none }]
    partners := [], admins := [], subscribers := [], products := [], carts := [] }

/-- Witness store for C2: the email `p@x` has non-deleted records in
both the partner and the admin collection. -/
def dbC2 : DB :=
  { sessions := [], users := [], products := [], carts := []
    partners := [{ id := "p1", email := "p@x", deleted_at := none }]
    admins := [{ id := "a1", email := "p@x", deleted_at := none }]
    subscribers := [] }

/-- The session of the demoted user in the C4 store. -/
def sessC4 : SessionRec :=
  { id := "s9", session_token := "tok9", user_id := "u1", expires_at := some 99 }

/-- Store for C4: admin record `a1` grants the admin role to the email
of user `u1`, who holds an active session. -/
def dbC4 : DB :=
  { sessions := [sessC4]
    users := [{ id := "u1", email := "adm@x", deleted_at := none }]
    partners := []
    admins := [{ id := "a1", email := "adm@x", deleted_at := none }]
    subscribers := [], products := [], carts := [] }

/-- Witness product for the cart claims: price 100, stock 10. -/
def prodP1 : Product := { id := "p1", price := 100, stock_quantity := 10 }

/-- Witness cart line for C3: frozen final price 120 above the frozen
original price 100. -/
def lineC3 : CartLine :=
  { product_id := "p1", quantity := 1, original_unit_price := some 100
    final_unit_price := some 120, discount_details := none
    bundle_group_id := none, added_by_admin_id := none }

/-- The response entry `get_cart` produces for `lineC3`: the reported
item discount is the negative value −20. -/
def entryC3 : CartItemOut :=
  { product_id := "p1", quantity := 1, original_unit_price := 100
    final_unit_price := 120, discount_details := none
    bundle_group_id := none, added_by_admin_id := none
    item_subtotal := 120, item_discount := -20 }

/-- Witness store for C5/C6: one product, no cart yet. -/
def dbCart : DB :=
  { sessions := [], users := [], partners := [], admins := []
    subscribers := [], products := [prodP1], carts := [] }

/-- First C5 request: product `p1`, quantity 2, no bundle group. -/
def reqC5a : CartItemAdd :=
  { product_id := "p1", quantity := 2, bundle_group_id := none
    bundle_offer_id := none, bundle_discount_percentage := none }

/-- Second C5 request: product `p1`, quantity 3, no bundle group. -/
def reqC5b : CartItemAdd :=
  { product_id := "p1", quantity := 3, bundle_group_id := none
    bundle_offer_id := none, bundle_discount_percentage := none }

/-- Second C5 request with a different bundle group `g9`. -/
def reqC5bG9 : CartItemAdd :=
  { product_id := "p1", quantity := 3, bundle_group_id := some "g9"
    bundle_offer_id := none, bundle_discount_percentage := none }

/-- The cart line the first C5 add creates: quantity 2, no group. -/
def lineC5 : CartLine :=
  { product_id := "p1", quantity := 2, original_unit_price := some 100
    final_unit_price := some 100
    discount_details := some { discount_type := "none", discount_value := 0, discount_source_id := none }
    bundle_group_id := none, added_by_admin_id := none }

/-- The merged cart line after the two C5 adds: quantity 5. -/
def lineC5five : CartLine :=
  { product_id := "p1", quantity := 5, original_unit_price := some 100
    final_unit_price := some 100
    discount_details := some { discount_type := "none", discount_value := 0, discount_source_id := none }
    bundle_group_id := none, added_by_admin_id := none }

/-- C6 request: product `p1`, quantity 2, bundle group `g1` with a 20%
bundle discount from offer `off1`. -/
def reqC6 : CartItemAdd :=
  { product_id := "p1", quantity := 2, bundle_group_id := some "g1"
    bundle_offer_id := some "off1", bundle_discount_percentage := some 20 }

/-- The cart line the C6 add creates: 20% bundle discount in group
`g1`, final price 80 frozen from original 100. -/
def lineC6 : CartLine :=
  { product_id := "p1", quantity := 2, original_unit_price := some 100
    final_unit_price := some 80
    discount_details := some { discount_type := "bundle", discount_value := 20, discount_source_id := some "off1" }
    bundle_group_id := some "g1", added_by_admin_id := none }

/-- The same line after voiding group `g1`: final restored to the
original 100, discount cleared, group cleared. -/
def lineC6Voided : CartLine :=
  { product_id := "p1", quantity := 2, original_unit_price := some 100
    final_unit_price := some 100
    discount_details := some { discount_type := "none", discount_value := 0, discount_source_id := none }
    bundle_group_id := none, added_by_admin_id := none }

/-- C8 request removing `p1` (quantity 0). -/
def reqC8zero : CartItemAdd :=
  { product_id := "p1", quantity := 0, bundle_group_id := none
    bundle_offer_id := none, bundle_discount_percentage := none }

/-- C8 request setting `p1`'s quantity to 7. -/
def reqC8seven : CartItemAdd :=
  { product_id := "p1", quantity := 7, bundle_group_id := none
    bundle_offer_id := none, bundle_discount_percentage := none }

/-- Witness cart line for C7/C10: quantity 2, original 100, final 80. -/
def lineC7 : CartLine :=
  { product_id := "p1", quantity := 2, original_unit_price := some 100
    final_unit_price := some 80, discount_details := none
    bundle_group_id := none, added_by_admin_id := none }

/-- The response entry `get_cart` produces for `lineC7`. -/
def entryC7 : CartItemOut :=
  { product_id := "p1", quantity := 2, original_unit_price := 100
    final_unit_price := 80, discount_details := none
    bundle_group_id := none, added_by_admin_id := none
    item_subtotal := 160, item_discount := 40 }

/-- A stale cart line for C10 whose product id resolves to no product. -/
def ghostLine : CartLine :=
  { product_id := "zz", quantity := 4, original_unit_price := some 7
    final_unit_price := some 7, discount_details := none
    bundle_group_id := none, added_by_admin_id := none }

/-- The stored cart of the C8/C10 store: a stale line followed by the
`p1` line. -/
def cartC8 : CartDoc := { user_id := "u1", items := [ghostLine, lineC7] }

/-- Witness store for C8/C10: a cart for `u1` holding a stale line for a
vanished product followed by the `p1` line. -/
def dbC8 : DB :=
  { sessions := [], users := [], partners := [], admins := []
    subscribers := [], products := [prodP1]
    carts := [cartC8] }

/-- Witness categories for C9: one updated recently, one updated long
ago, one soft-deleted recently. -/
def catA : CatRec :=
  { id := "c1", name := "Alpha", sort_order := 1, updated_at := 10, deleted_at := none }

def catB : CatRec :=
  { id := "c2", name := "Beta", sort_order := 2, updated_at := 3, deleted_at := none }

def catD : CatRec :=
  { id := "c3", name := "Gone", sort_order := 1, updated_at := 1, deleted_at := some 7 }

def catsC9 : List CatRec := [catB, catD, catA]

/-- 1001 identical non-deleted categories: more than the `to_list(1000)`
cap of the categories delta pull. -/
def catsBig : List CatRec :=
  List.replicate 1001
    { id := "", name := "", sort_order := 0, updated_at := 0, deleted_at := none }

end Shop

namespace Shop

/-- `update_one` rewrites the first element the update query matches:
if `find?` finds `x` by a predicate `p` implied by the query `q`, and
`x` matches `q` while `f` preserves `p`, the first `p`-element of the
updated list is `f x`. -/
theorem find?_update_one_of_imp (p q : α → Bool) (f : α → α) (l : List α)
    (x : α) (hfind : l.find? p = some x) (hq : q x = true)
    (himp : ∀ y, q y = true → p y = true) (hpf : p (f x) = true) :
    (update_one q f l).find? p = some (f x) := by
  induction l with
  | nil => simp at hfind
  | cons a as ih =>
    by_cases hpa : p a = true
    · have hxa : x = a := by
        rw [List.find?_cons_of_pos _ hpa] at hfind
        exact (Option.some.injEq _ _).mp hfind.symm
      subst hxa
      rw [update_one, if_pos hq, List.find?_cons_of_pos _ hpf]
    · have hqa : ¬ q a = true := fun h => hpa (himp a h)
      rw [List.find?_cons_of_neg _ hpa] at hfind
      rw [update_one, if_neg hqa, List.find?_cons_of_neg _ hpa]
      exact ih hfind

/-- C1: a request whose session token resolves to a session with
`expires_at ≤ now` is treated as unauthenticated: `get_current_user`
returns no user and eagerly deletes the expired session record (the
record is erased and the collection shrinks by one), `require_auth`
raises 401, and `require_admin_role` never yields a `(user, role)` pair
for it. -/
theorem C1_expired_session_never_authorizes
    (db : DB) (now : ℤ) (t : String) (session : SessionRec) (e : ℤ)
    (hfind : db.sessions.find? (fun s => s.session_token == t) = some session)
    (hexp : session.expires_at = some e) (hle : e ≤ now) :
    (get_current_user db now (some t)).2 = none ∧
    (get_current_user db now (some t)).1.sessions =
      db.sessions.eraseP (fun s => s.id == session.id) ∧
    (get_current_user db now (some t)).1.sessions.length =
      db.sessions.length - 1 ∧
    (require_auth db now (some t)).2 = Except.error 401 ∧
    (∀ ownerEmail allowed_roles,
      (require_admin_role ownerEmail db now (some t) allowed_roles).2 =
        Except.error 401) := by
  have hmem : session ∈ db.sessions := List.mem_of_find?_eq_some hfind
  have hgcu : get_current_user db now (some t) =
      ({ db with sessions := db.sessions.eraseP (fun s => s.id == session.id) },
        none) := by
    simp only [get_current_user, hfind, hexp, if_pos hle]
  refine ⟨by rw [hgcu], by rw [hgcu], ?_, ?_, ?_⟩
  · rw [hgcu]
    exact List.length_eraseP_of_mem hmem (by simp)
  · simp only [require_auth, hgcu]
  · intro ownerEmail allowed_roles
    simp only [require_admin_role, require_auth, hgcu]

/-- C1 witness: at time 10 the token `tok1` of `dbC1` resolves to a
session expired at time 5; the caller is unauthenticated, the session is
deleted, and the role-gated path errors with 401. -/
theorem C1_expired_session_never_authorizes_witness :
    (get_current_user dbC1 10 (some "tok1")).2 = none ∧
    (get_current_user dbC1 10 (some "tok1")).1.sessions =
      dbC1.sessions.eraseP (fun s => s.id == sessC1.id) ∧
    (get_current_user dbC1 10 (some "tok1")).1.sessions.length =
      dbC1.sessions.length - 1 ∧
    (require_auth dbC1 10 (some "tok1")).2 = Except.error 401 ∧
    (∀ ownerEmail allowed_roles,
      (require_admin_role ownerEmail dbC1 10 (some "tok1") allowed_roles).2 =
        Except.error 401) :=
  C1_expired_session_never_authorizes dbC1 10 "tok1" sessC1 5
    (by decide) rfl (by decide)

/-- C2: role resolution is a strict precedence. A missing identity (and
only a missing identity) is `guest`; the configured owner email is
`owner`; otherwise a non-deleted partner record gives `partner`
regardless of the admin and subscriber collections; otherwise a
non-deleted admin record gives `admin`; otherwise a non-deleted
subscriber record gives `subscriber`; otherwise `user`. -/
theorem C2_role_precedence (ownerEmail : String) (db : DB) :
    (get_user_role ownerEmail db none = "guest") ∧
    (∀ u : UserRec, get_user_role ownerEmail db (some u) ≠ "guest") ∧
    (∀ u : UserRec, u.email = ownerEmail →
      get_user_role ownerEmail db (some u) = "owner") ∧
    (∀ u : UserRec, u.email ≠ ownerEmail →
      (findMember db.partners u.email).isSome →
      get_user_role ownerEmail db (some u) = "partner") ∧
    (∀ u : UserRec, u.email ≠ ownerEmail →
      (findMember db.partners u.email) = none →
      (findMember db.admins u.email).isSome →
      get_user_role ownerEmail db (some u) = "admin") ∧
    (∀ u : UserRec, u.email ≠ ownerEmail →
      (findMember db.partners u.email) = none →
      (findMember db.admins u.email) = none →
      (findMember db.subscribers u.email).isSome →
      get_user_role ownerEmail db (some u) = "subscriber") ∧
    (∀ u : UserRec, u.email ≠ ownerEmail →
      (findMember db.partners u.email) = none →
      (findMember db.admins u.email) = none →
      (findMember db.subscribers u.email) = none →
      get_user_role ownerEmail db (some u) = "user") := by
  refine ⟨rfl, ?_, ?_, ?_, ?_, ?_, ?_⟩
  · intro u
    simp only [get_user_role]
    split <;> try split
    all_goals first
      | decide
      | (split <;> try split
         all_goals decide)
  · intro u h
    simp [get_user_role, h]
  · intro u h hp
    simp [get_user_role, h, hp]
  · intro u h hp ha
    simp [get_user_role, h, hp, ha]
  · intro u h hp ha hs
    simp [get_user_role, h, hp, ha, hs]
  · intro u h hp ha hs
    simp [get_user_role, h, hp, ha, hs]

/-- C2 witness: in `dbC2` the user with email `p@x` resolves to
`partner` although the same email also has a non-deleted admin record
(precedence), and a missing identity resolves to `guest`. -/
theorem C2_role_precedence_witness :
    get_user_role "o@x" dbC2
      (some { id := "u1", email := "p@x", deleted_at := none }) = "partner" ∧
    get_user_role "o@x" dbC2 none = "guest" :=
  ⟨(C2_role_precedence "o@x" dbC2).2.2.2.1
      { id := "u1", email := "p@x", deleted_at := none } (by decide) (by decide),
    (C2_role_precedence "o@x" dbC2).1⟩

/-- C4 (code bug): `delete_admin` only soft-deletes the admin record —
for every store it leaves the sessions collection untouched, so the
demoted user's old sessions survive the demotion. In the concrete store
`dbC4`, deleting admin `a1` keeps user `u1`'s session alive, while the
(never-called) `invalidate_user_sessions` helper would have removed it. -/
theorem C4_delete_admin_does_not_invalidate_sessions :
    (∀ db now admin_id, (delete_admin db now admin_id).sessions = db.sessions) ∧
    (delete_admin dbC4 50 "a1").sessions = [sessC4] ∧
    (delete_admin dbC4 50 "a1").admins =
      [{ id := "a1", email := "adm@x", deleted_at := some 50 }] ∧
    (invalidate_user_sessions dbC4 "u1").sessions = [] :=
  ⟨fun _ _ _ => rfl, rfl, rfl, rfl⟩

/-- C3 counterexample: `get_cart` applies no floor to the per-line
discount. For the stored line with original 100, final 120, quantity 1
the reported `item_discount` is −20 — strictly negative and not 0, so a
line with `final_unit_price > original_unit_price` does not report a
discount of 0. -/
theorem C3_discount_floor_counterexample :
    (getCart [prodP1] [lineC3]).items = [entryC3] ∧
    entryC3.original_unit_price < entryC3.final_unit_price ∧
    entryC3.item_discount = -20 ∧
    entryC3.item_discount < 0 ∧
    ¬ entryC3.item_discount = 0 :=
  ⟨by with_unfolding_all rfl,
    of_decide_eq_true (by with_unfolding_all rfl),
    by with_unfolding_all rfl,
    of_decide_eq_true (by with_unfolding_all rfl),
    of_decide_eq_true (by with_unfolding_all rfl)⟩

/-- C3 amended: every entry of the cart recompute reports
`item_discount = (original_unit_price − final_unit_price) × quantity`
with no floor at 0; consequently a line whose final price exceeds its
original price (with positive quantity) reports a strictly negative
`item_discount`, not 0. -/
theorem C3_item_discount_formula (ps : List Product) (items : List CartLine) :
    ∀ e ∈ (getCart ps items).items,
      e.item_discount =
        (e.original_unit_price - e.final_unit_price) * (e.quantity : ℚ) ∧
      e.item_subtotal = e.final_unit_price * (e.quantity : ℚ) ∧
      (e.original_unit_price < e.final_unit_price → 0 < e.quantity →
        e.item_discount < 0) := by
  show ∀ e ∈ (getCartLoop ps items).1, _
  induction items with
  | nil => simp [getCartLoop]
  | cons item rest ih =>
    intro e he
    rw [getCartLoop] at he
    rcases hfp : findProduct ps item.product_id with _ | product
    · rw [hfp] at he
      exact ih e he
    · rw [hfp] at he
      rcases List.mem_cons.mp he with he | he
      · subst he
        refine ⟨rfl, rfl, ?_⟩
        intro hlt hq
        have hq' : (0 : ℚ) < ((item.quantity : ℤ) : ℚ) := by
          exact_mod_cast hq
        exact mul_neg_of_neg_of_pos (sub_neg.mpr hlt) hq'
      · exact ih e he

/-- C3 amended witness: the formula and the sign statement applied to
the concrete line with original 100 < final 120, quantity 1. -/
theorem C3_item_discount_formula_witness :
    entryC3.item_discount =
      (entryC3.original_unit_price - entryC3.final_unit_price) *
        (entryC3.quantity : ℚ) ∧
    entryC3.item_discount < 0 := by
  have hmem : entryC3 ∈ (getCart [prodP1] [lineC3]).items := by
    have h : (getCart [prodP1] [lineC3]).items = [entryC3] := by
      with_unfolding_all rfl
    rw [h]
    exact List.mem_singleton.mpr rfl
  have happ := C3_item_discount_formula [prodP1] [lineC3] entryC3 hmem
  exact ⟨happ.1,
    happ.2.2 (of_decide_eq_true (by with_unfolding_all rfl)) (by decide)⟩

/-- When every line's product resolves, the raw accumulators of the
`get_cart` loop are the per-line sums of original×quantity and of
(original − final)×quantity. -/
theorem getCartLoop_sums (ps : List Product) (items : List CartLine)
    (h : ∀ l ∈ items, (findProduct ps l.product_id).isSome) :
    (getCartLoop ps items).2.1 =
      (items.map (fun l => lineOriginalD ps l * (l.quantity : ℚ))).sum ∧
    (getCartLoop ps items).2.2 =
      (items.map (fun l =>
        (lineOriginalD ps l - lineFinalD ps l) * (l.quantity : ℚ))).sum := by
  induction items with
  | nil => simp [getCartLoop]
  | cons item rest ih =>
    have hhead := h item (List.mem_cons_self item rest)
    rcases hfp : findProduct ps item.product_id with _ | product
    · rw [hfp] at hhead
      simp at hhead
    · have ihh := ih (fun l hl => h l (List.mem_cons_of_mem _ hl))
      constructor
      · simp only [getCartLoop, hfp, List.map_cons, List.sum_cons,
          lineOriginalD, ihh.1]
      · simp only [getCartLoop, hfp, List.map_cons, List.sum_cons,
          lineOriginalD, lineFinalD, ihh.2]

/-- C7: when every cart line's product resolves, the recompute returns
`subtotal = round2(Σ original×qty)`, `total_discount =
round2(Σ (original−final)×qty)` and `total = round2(Σ original×qty − Σ
(original−final)×qty)` — accumulation is unrounded and rounding happens
only at the response boundary. Concretely, the cart with the single line
{qty 2, original 100, final 80} yields subtotal 200, total_discount 40,
total 160. -/
theorem C7_cart_totals (ps : List Product) (items : List CartLine)
    (h : ∀ l ∈ items, (findProduct ps l.product_id).isSome) :
    (getCart ps items).subtotal =
      round2 ((items.map (fun l => lineOriginalD ps l * (l.quantity : ℚ))).sum) ∧
    (getCart ps items).total_discount =
      round2 ((items.map (fun l =>
        (lineOriginalD ps l - lineFinalD ps l) * (l.quantity : ℚ))).sum) ∧
    (getCart ps items).total =
      round2 ((items.map (fun l => lineOriginalD ps l * (l.quantity : ℚ))).sum -
        (items.map (fun l =>
          (lineOriginalD ps l - lineFinalD ps l) * (l.quantity : ℚ))).sum) ∧
    getCart [prodP1] [lineC7] =
      { items := [entryC7], subtotal := 200, total_discount := 40, total := 160 } := by
  have hs := getCartLoop_sums ps items h
  refine ⟨?_, ?_, ?_, ?_⟩
  · show round2 (getCartLoop ps items).2.1 = _
    rw [hs.1]
  · show round2 (getCartLoop ps items).2.2 = _
    rw [hs.2]
  · show round2 ((getCartLoop ps items).2.1 - (getCartLoop ps items).2.2) = _
    rw [hs.1, hs.2]
  · with_unfolding_all rfl

/-- C7 witness: the totals formulas instantiated on the one-line
scenario cart, with every product resolving. -/
theorem C7_cart_totals_witness :
    (getCart [prodP1] [lineC7]).subtotal =
      round2 (([lineC7].map (fun l =>
        lineOriginalD [prodP1] l * (l.quantity : ℚ))).sum) ∧
    (getCart [prodP1] [lineC7]).total =
      round2 (([lineC7].map (fun l =>
        lineOriginalD [prodP1] l * (l.quantity : ℚ))).sum -
        ([lineC7].map (fun l =>
          (lineOriginalD [prodP1] l - lineFinalD [prodP1] l) *
            (l.quantity : ℚ))).sum) := by
  have happ := C7_cart_totals [prodP1] [lineC7] (by
    intro l hl
    rcases List.mem_singleton.mp hl with h
    subst h
    with_unfolding_all rfl)
  exact ⟨happ.1, happ.2.2.1⟩

/-- Skipping law of the `get_cart` loop: a line whose product does not
resolve contributes nothing — the loop result on a list containing it
equals the result on the list without it. -/
theorem getCartLoop_skip (ps : List Product) (bad : CartLine)
    (hbad : findProduct ps bad.product_id = none) (pre post : List CartLine) :
    getCartLoop ps (pre ++ bad :: post) = getCartLoop ps (pre ++ post) := by
  induction pre with
  | nil => simp [getCartLoop, hbad]
  | cons a as ih => simp only [List.cons_append, getCartLoop, List.append_eq, ih]

/-- C10: the cart read path never mutates the store, and a cart line
whose product id no longer resolves is silently omitted — the response
(items, subtotal, total_discount, total) over a cart containing the
stale line equals the response over the cart without it, with no error.
Concretely, reading `dbC8`'s cart (a stale line followed by the `p1`
line) returns only the `p1` entry and leaves the store — including the
stored stale line — unchanged. -/
theorem C10_read_skips_stale_lines (db : DB) (uid : String) :
    (get_cart_endpoint db uid).1 = db ∧
    (∀ (ps : List Product) (pre post : List CartLine) (bad : CartLine),
      findProduct ps bad.product_id = none →
      getCart ps (pre ++ bad :: post) = getCart ps (pre ++ post)) ∧
    get_cart_endpoint dbC8 "u1" =
      (dbC8, { items := [entryC7], subtotal := 200, total_discount := 40,
               total := 160 }) := by
  refine ⟨?_, ?_, ?_⟩
  · rcases hfind : db.carts.find? (fun c => c.user_id == uid) with _ | cart <;>
      simp [get_cart_endpoint, hfind]
  · intro ps pre post bad hbad
    show (let r := getCartLoop ps (pre ++ bad :: post); _ : CartResponse) = _
    rw [getCart, getCart, getCartLoop_skip ps bad hbad pre post]
  · with_unfolding_all rfl

/-- C10 witness: the skip law applied to the stale line of `dbC8`'s
cart (no product with id `zz` exists). -/
theorem C10_read_skips_stale_lines_witness :
    getCart [prodP1] ([] ++ ghostLine :: [lineC7]) =
      getCart [prodP1] ([] ++ [lineC7]) :=
  (C10_read_skips_stale_lines dbC8 "u1").2.1 [prodP1] [] [lineC7] ghostLine
    (by with_unfolding_all rfl)

/-- C5: `add_to_cart` on an existing cart. When the scan finds a line
matching the request's product and bundle group (absence of a group
matching only group-less lines), that line's quantity is incremented by
the requested amount — the cart keeps the same number of lines and every
other line is untouched. When no line matches (in particular, a
different bundle group), a fresh line is appended. Concretely, adding
`p1` with no bundle group with quantities 2 then 3 to an empty store
yields exactly one line with quantity 5. -/
theorem C5_add_to_cart_merge (db : DB) (uid : String) (item : CartItemAdd)
    (product : Product) (cart : CartDoc)
    (hprod : findProduct db.products item.product_id = some product)
    (hcart : db.carts.find? (fun c => c.user_id == uid) = some cart) :
    (∀ idx, cart.items.findIdx? (matchesLine item) = some idx →
      (add_to_cart db uid item).1.carts.find? (fun c => c.user_id == uid) =
        some { cart with items := incQuantityAt cart.items idx item.quantity } ∧
      (incQuantityAt cart.items idx item.quantity).length = cart.items.length ∧
      (incQuantityAt cart.items idx item.quantity)[idx]? =
        cart.items[idx]?.map
          (fun l => { l with quantity := l.quantity + item.quantity }) ∧
      (∀ j, j ≠ idx →
        (incQuantityAt cart.items idx item.quantity)[j]? = cart.items[j]?)) ∧
    (cart.items.findIdx? (matchesLine item) = none →
      (add_to_cart db uid item).1.carts.find? (fun c => c.user_id == uid) =
        some { cart with items := cart.items ++ [mkCartItem product item] }) ∧
    (add_to_cart (add_to_cart dbCart "u1" reqC5a).1 "u1" reqC5b).1.carts =
      [{ user_id := "u1", items := [lineC5five] }] := by
  have hqcart := List.find?_some hcart
  refine ⟨?_, ?_, ?_⟩
  · intro idx hidx
    have hres : (add_to_cart db uid item).1.carts =
        update_one (fun c => c.user_id == uid)
          (fun c => { c with items := incQuantityAt c.items idx item.quantity })
          db.carts := by
      simp only [add_to_cart, hprod, hcart, hidx]
    refine ⟨?_, ?_, ?_, ?_⟩
    · rw [hres]
      exact find?_update_one_of_imp _ _ _ _ cart hcart hqcart
        (fun y hy => hy) hqcart
    · simp [incQuantityAt, List.length_modify]
    · simp [incQuantityAt, List.getElem?_modify_eq]
    · intro j hj
      simp [incQuantityAt, List.getElem?_modify_ne _ _ (Ne.symm hj)]
  · intro hidx
    have hres : (add_to_cart db uid item).1.carts =
        update_one (fun c => c.user_id == uid)
          (fun c => { c with items := c.items ++ [mkCartItem product item] })
          db.carts := by
      simp only [add_to_cart, hprod, hcart, hidx]
    rw [hres]
    exact find?_update_one_of_imp _ _ _ _ cart hcart hqcart
      (fun y hy => hy) hqcart
  · with_unfolding_all rfl

/-- C5 witness: the merge branch applied concretely — after the first
add of `p1` (quantity 2, no group) the second add finds that line at
index 0 and the resulting cart holds it with quantity 5; the append
branch applied to the same cart for a request with bundle group `g9`
(no matching line) appends a separate line. -/
theorem C5_add_to_cart_merge_witness :
    ((add_to_cart (add_to_cart dbCart "u1" reqC5a).1 "u1"
        reqC5b).1.carts.find? (fun c => c.user_id == "u1") =
      some { user_id := "u1", items := incQuantityAt [lineC5] 0 3 }) ∧
    ((add_to_cart (add_to_cart dbCart "u1" reqC5a).1 "u1"
        reqC5bG9).1.carts.find? (fun c => c.user_id == "u1") =
      some { user_id := "u1", items := [lineC5] ++ [mkCartItem prodP1 reqC5bG9] }) := by
  constructor
  · exact ((C5_add_to_cart_merge (add_to_cart dbCart "u1" reqC5a).1 "u1" reqC5b
      prodP1 { user_id := "u1", items := [lineC5] }
      (by with_unfolding_all rfl) (by with_unfolding_all rfl)).1 0
      (by with_unfolding_all rfl)).1
  · exact (C5_add_to_cart_merge (add_to_cart dbCart "u1" reqC5a).1 "u1"
      reqC5bG9 prodP1 { user_id := "u1", items := [lineC5] }
      (by with_unfolding_all rfl) (by with_unfolding_all rfl)).2.1
      (by with_unfolding_all rfl)

/-- `update_one` skips a prefix of non-matching elements. -/
theorem update_one_append_of_neg (p : α → Bool) (f : α → α) (pre rest : List α)
    (hpre : ∀ x ∈ pre, p x = false) :
    update_one p f (pre ++ rest) = pre ++ update_one p f rest := by
  induction pre with
  | nil => rfl
  | cons a as ih =>
    have ha : ¬ p a = true := by
      rw [hpre a (List.mem_cons_self a as)]
      simp
    simp only [List.cons_append, update_one, if_neg ha, List.append_eq]
    rw [ih (fun x hx => hpre x (List.mem_cons_of_mem a hx))]

/-- C6: voiding bundle group `g` rewrites the found cart's lines through
`voidLine g` — keeping the number of lines, every quantity and product
id; every line of group `g` gets its final price reset to its original
price, its discount details cleared to type `none` and its group
cleared, while lines outside `g` are untouched. Concretely, adding `p1`
with a 20% bundle discount in group `g1` and then voiding `g1` leaves
one line with `final_unit_price = original_unit_price = 100`. -/
theorem C6_void_bundle_resets_group (db : DB) (uid g : String) (cart : CartDoc)
    (hcart : db.carts.find? (fun c => c.user_id == uid) = some cart) :
    ((void_bundle_discount db uid g).carts.find? (fun c => c.user_id == uid) =
      some { cart with items := cart.items.map (voidLine g) }) ∧
    ((cart.items.map (voidLine g)).length = cart.items.length) ∧
    (∀ l : CartLine, (voidLine g l).quantity = l.quantity ∧
      (voidLine g l).product_id = l.product_id) ∧
    (∀ (l : CartLine) (p : ℚ), l.bundle_group_id = some g →
      l.original_unit_price = some p →
      (voidLine g l).final_unit_price = some p ∧
      (voidLine g l).original_unit_price = some p ∧
      (voidLine g l).discount_details =
        some { discount_type := "none", discount_value := 0,
               discount_source_id := none } ∧
      (voidLine g l).bundle_group_id = none) ∧
    (∀ l : CartLine, l.bundle_group_id ≠ some g → voidLine g l = l) ∧
    ((void_bundle_discount (add_to_cart dbCart "u1" reqC6).1 "u1" "g1").carts =
      [{ user_id := "u1", items := [lineC6Voided] }]) := by
  have hqcart := List.find?_some hcart
  refine ⟨?_, List.length_map _ _, ?_, ?_, ?_, ?_⟩
  · have hres : (void_bundle_discount db uid g).carts =
        update_one (fun c => c.user_id == uid)
          (fun c => { c with items := cart.items.map (voidLine g) })
          db.carts := by
      simp only [void_bundle_discount, hcart]
    rw [hres]
    exact find?_update_one_of_imp _ _ _ _ cart hcart hqcart
      (fun y hy => hy) hqcart
  · intro l
    constructor <;> (simp only [voidLine]; split <;> rfl)
  · intro l p hg ho
    simp [voidLine, hg, ho]
  · intro l hne
    have : (l.bundle_group_id == some g) = false := by
      simp [hne]
    simp [voidLine, this]
  · with_unfolding_all rfl

/-- C6 witness: the void rewrite applied to the store obtained by the
bundle add of `reqC6`, and the group-line reset applied to the stored
discounted line (original price 100). -/
theorem C6_void_bundle_resets_group_witness :
    ((void_bundle_discount (add_to_cart dbCart "u1" reqC6).1 "u1"
        "g1").carts.find? (fun c => c.user_id == "u1") =
      some { user_id := "u1", items := [lineC6].map (voidLine "g1") }) ∧
    (voidLine "g1" lineC6).final_unit_price = some 100 ∧
    (voidLine "g1" lineC6).bundle_group_id = none := by
  have happ := C6_void_bundle_resets_group (add_to_cart dbCart "u1" reqC6).1
    "u1" "g1" { user_id := "u1", items := [lineC6] }
    (by with_unfolding_all rfl)
  have hline := happ.2.2.2.1 lineC6 100 rfl rfl
  exact ⟨happ.1, hline.1, hline.2.2.2⟩

/-- C8: updating product `p` in a cart that holds exactly one line for
`p` (decomposed as `pre ++ l :: post` with no other `p`-line). A
non-positive quantity removes that line entirely; a positive quantity
replaces the line's stored quantity with the given value — keeping every
other field of the line and every other line unchanged. -/
theorem C8_update_cart_set_or_remove (db : DB) (uid : String)
    (item : CartItemAdd) (cart : CartDoc) (pre post : List CartLine)
    (l : CartLine)
    (hcart : db.carts.find? (fun c => c.user_id == uid) = some cart)
    (hitems : cart.items = pre ++ l :: post)
    (hl : l.product_id = item.product_id)
    (hpre : ∀ x ∈ pre, x.product_id ≠ item.product_id)
    (hpost : ∀ x ∈ post, x.product_id ≠ item.product_id) :
    (item.quantity ≤ 0 →
      (update_cart db uid item).carts.find? (fun c => c.user_id == uid) =
        some { cart with items := pre ++ post }) ∧
    (0 < item.quantity →
      (update_cart db uid item).carts.find? (fun c => c.user_id == uid) =
        some { cart with items :=
          pre ++ { l with quantity := item.quantity } :: post }) := by
  have hqcart := List.find?_some hcart
  constructor
  · intro hq
    have hres : (update_cart db uid item).carts =
        update_one (fun c => c.user_id == uid)
          (fun c => { c with items := (
            c.items.filter (fun x => !(x.product_id == item.product_id))) })
          db.carts := by
      simp only [update_cart, if_pos hq]
    have hfilter : cart.items.filter
        (fun x => !(x.product_id == item.product_id)) = pre ++ post := by
      rw [hitems, List.filter_append]
      congr 1
      · exact List.filter_eq_self.mpr (fun x hx => by simp [hpre x hx])
      · rw [List.filter_cons_of_neg (by simp [hl]), List.filter_eq_self.mpr
          (fun x hx => by simp [hpost x hx])]
    rw [hres]
    have := find?_update_one_of_imp (fun c => c.user_id == uid)
      (fun c => c.user_id == uid)
      (fun c => { c with items := (
        c.items.filter (fun x => !(x.product_id == item.product_id))) })
      db.carts cart hcart hqcart (fun y hy => hy) hqcart
    rw [this]
    simp [hfilter]
  · intro hq
    have hq' : ¬ item.quantity ≤ 0 := not_le.mpr hq
    have hres : (update_cart db uid item).carts =
        update_one (fun c => c.user_id == uid &&
            c.items.any (fun x => x.product_id == item.product_id))
          (fun c => { c with items := (
            update_one (fun x => x.product_id == item.product_id)
              (fun x => { x with quantity := item.quantity }) c.items) })
          db.carts := by
      simp only [update_cart, if_neg hq']
    have hany : cart.items.any
        (fun x => x.product_id == item.product_id) = true := by
      rw [hitems]
      refine List.any_eq_true.mpr ⟨l, ?_, by simp [hl]⟩
      exact List.mem_append_right _ (List.mem_cons_self l post)
    have hupd : update_one (fun x => x.product_id == item.product_id)
        (fun x => { x with quantity := item.quantity }) cart.items =
        pre ++ { l with quantity := item.quantity } :: post := by
      rw [hitems, update_one_append_of_neg _ _ pre _
        (fun x hx => by simp [hpre x hx])]
      congr 1
      rw [update_one, if_pos (by simp [hl])]
    rw [hres]
    have := find?_update_one_of_imp (fun c => c.user_id == uid)
      (fun c => c.user_id == uid &&
        c.items.any (fun x => x.product_id == item.product_id))
      (fun c => { c with items := (
        update_one (fun x => x.product_id == item.product_id)
          (fun x => { x with quantity := item.quantity }) c.items) })
      db.carts cart hcart (by rw [Bool.and_eq_true]; exact ⟨hqcart, hany⟩)
      (fun y hy => by simp only [Bool.and_eq_true] at hy; exact hy.1) hqcart
    rw [this]
    simp [hupd]

/-- C8 witness: in `dbC8` (stale line, then the `p1` line), quantity 0
removes the `p1` line and quantity 7 replaces its stored quantity 2 with
7, leaving the stale line untouched. -/
theorem C8_update_cart_set_or_remove_witness :
    ((update_cart dbC8 "u1" reqC8zero).carts.find?
        (fun c => c.user_id == "u1") =
      some { cartC8 with items := [ghostLine] ++ [] }) ∧
    ((update_cart dbC8 "u1" reqC8seven).carts.find?
        (fun c => c.user_id == "u1") =
      some { cartC8 with items :=
        [ghostLine] ++ { lineC7 with quantity := 7 } :: [] }) := by
  constructor
  · exact (C8_update_cart_set_or_remove dbC8 "u1" reqC8zero cartC8
      [ghostLine] [] lineC7 (by with_unfolding_all rfl) rfl rfl
      (by decide) (by decide)).1 (by decide)
  · exact (C8_update_cart_set_or_remove dbC8 "u1" reqC8seven cartC8
      [ghostLine] [] lineC7 (by with_unfolding_all rfl) rfl rfl
      (by decide) (by decide)).2 (by decide)

set_option maxRecDepth 100000 in
set_option maxHeartbeats 1000000 in
/-- C9 counterexample: the categories delta pull truncates its result
with `to_list(1000)`. With 1001 non-deleted categories a pull with no
`since` returns only 1000 items, so the returned items are not exactly
the non-deleted records. -/
theorem C9_truncation_counterexample :
    (catsBig.filter (fun c => c.deleted_at == none)).length = 1001 ∧
    (get_categories_delta catsBig none).1.length = 1000 := by
  constructor
  · decide
  · decide

/-- C9 amended: up to the `to_list` caps (1000 items, 500 deleted ids),
the delta pull is exact. When `since` is given (and at most 1000 records
match and at most 500 deletions match), the returned items are exactly
the non-deleted records with update timestamp strictly greater than
`since` and the deleted ids are exactly the ids of records whose
soft-delete timestamp is strictly greater than `since`; when `since` is
absent (and at most 1000 records are non-deleted), all non-deleted
records are returned and the deleted-ids list is empty. -/
theorem C9_delta_pull_exact_within_caps (cats : List CatRec) (t : ℤ)
    (hcap : (cats.filter (fun c =>
      c.deleted_at == none && decide (t < c.updated_at))).length ≤ 1000)
    (hcapDel : (cats.filter (fun c =>
      match c.deleted_at with
      | some d => decide (t < d)
      | none => false)).length ≤ 500)
    (hcapFull : (cats.filter (fun c => c.deleted_at == none)).length ≤ 1000) :
    (∀ c : CatRec, c ∈ (get_categories_delta cats (some t)).1 ↔
      c ∈ cats ∧ c.deleted_at = none ∧ t < c.updated_at) ∧
    ((get_categories_delta cats (some t)).2 =
      (cats.filter (fun c =>
        match c.deleted_at with
        | some d => decide (t < d)
        | none => false)).map (fun c => c.id)) ∧
    (∀ c : CatRec, c ∈ (get_categories_delta cats none).1 ↔
      c ∈ cats ∧ c.deleted_at = none) ∧
    ((get_categories_delta cats none).2 = []) := by
  refine ⟨?_, ?_, ?_, rfl⟩
  · intro c
    simp only [get_categories_delta]
    rw [List.take_of_length_le (by rw [List.length_insertionSort]; exact hcap)]
    rw [List.mem_insertionSort, List.mem_filter]
    simp [and_assoc]
  · simp only [get_categories_delta]
    rw [List.take_of_length_le hcapDel]
  · intro c
    simp only [get_categories_delta]
    rw [List.take_of_length_le (by
      rw [List.length_insertionSort]
      exact le_trans (le_of_eq (by simp)) hcapFull)]
    rw [List.mem_insertionSort, List.mem_filter]
    simp

/-- C9 amended witness: the exactness applied to the three-category
store `catsC9` with `since = 5` — `catA` (updated at 10) is returned,
the recently deleted `catD` is reported in the deleted ids, and a pull
with no `since` returns no deleted ids. -/
theorem C9_delta_pull_exact_within_caps_witness :
    (catA ∈ (get_categories_delta catsC9 (some 5)).1 ↔
      catA ∈ catsC9 ∧ catA.deleted_at = none ∧ (5 : ℤ) < catA.updated_at) ∧
    ((get_categories_delta catsC9 (some 5)).2 =
      (catsC9.filter (fun c =>
        match c.deleted_at with
        | some d => decide ((5 : ℤ) < d)
        | none => false)).map (fun c => c.id)) ∧
    ((get_categories_delta catsC9 none).2 = []) := by
  have happ := C9_delta_pull_exact_within_caps catsC9 5
    (by decide) (by decide) (by decide)
  exact ⟨happ.1 catA, happ.2.1, happ.2.2.2⟩

/-- Validation of the half-to-even rounding model on representative
inputs (0.125 → 0.12, 0.375 → 0.38, 0.025 → 0.02, 0.035 → 0.04,
−0.025 → −0.02). -/
theorem round2_half_even_samples :
    round2 (1/8 : ℚ) = 12/100 ∧
    round2 (3/8 : ℚ) = 38/100 ∧
    round2 (25/1000 : ℚ) = 2/100 ∧
    round2 (35/1000 : ℚ) = 4/100 ∧
    round2 (-(25/1000) : ℚ) = -(2/100) :=
  ⟨by with_unfolding_all rfl, by with_unfolding_all rfl,
    by with_unfolding_all rfl, by with_unfolding_all rfl,
    by with_unfolding_all rfl⟩

end Shop
